import Mathlib

/-!
Verification of the feature-flag service core (`src/app.js`): the in-memory
flag store, value-to-boolean coercion, context parsing, refresh semantics and
the deterministic assignment evaluator, shallowly embedded as pure Lean
functions.  HTTP handlers are modelled as functions of the store state and the
request pieces they actually read; `new Date().toISOString()` is modelled as an
explicit timestamp argument.
-/

set_option linter.unusedVariables false

namespace FeatureFlags

/-- A JavaScript value as stored in a flag or an attribute map: boolean,
number, string, or a structured/object value.  JS numbers are modelled as
rationals (covers the negative and fractional cases the code distinguishes);
object internals are never inspected by any modelled operation, so an object
is represented by an opaque identifier that keeps distinct objects distinct. -/
inductive JSValue where
  | bool (b : Bool)
  | num (q : ℚ)
  | str (s : String)
  | obj (id : ℕ)
deriving DecidableEq, Repr

/-- One record of the flag store (`app.js` seeds: `{value, lastUpdated, source}`). -/
structure FlagRecord where
  value : JSValue
  lastUpdated : String
  source : String
deriving DecidableEq, Repr

/-- The in-memory store `flags` (a JS `Map` from flag key to record),
modelled as an association list with lookup on the first matching key. -/
abbrev FlagStore := List (String × FlagRecord)

/-- An attribute map (`userAttributes`), a JS object: string keys to values. -/
abbrev Attrs := List (String × JSValue)

/-- `Map.get` / JS property access on an association list. -/
def mapGet {β : Type} : List (String × β) → String → Option β
  | [], _ => none
  | (a, b) :: rest, k => if k = a then some b else mapGet rest k

/-- The seed data of `app.js` lines 9-31: four flags, each stamped with its
own `new Date().toISOString()` (passed here as `t1`-`t4`), source `bootstrap`. -/
def initFlags (t1 t2 t3 t4 : String) : FlagStore :=
  [ ("feature-new-ui", ⟨.bool true, t1, "bootstrap"⟩),
    ("feature-analytics", ⟨.bool false, t2, "bootstrap"⟩),
    ("max-items-per-page", ⟨.num 50, t3, "bootstrap"⟩),
    ("api-version", ⟨.str "v2", t4, "bootstrap"⟩) ]

/-- JS truthiness of the optional `userId` string: absent and the empty
string are falsy, every other string is truthy. -/
def strTruthy : Option String → Bool
  | none => false
  | some s => !(s == "")

/-- JS truthiness of the optional `userAttributes` object: any present
object (even `{}`) is truthy. -/
def attrsTruthy : Option Attrs → Bool
  | none => false
  | some _ => true

/-- `userId.split('').reduce((acc, char) => acc + char.charCodeAt(0), 0)`
(`app.js` line 362): the sum of the UTF-16 code units of the string.
`split('')` splits into UTF-16 code units, so a code point above `0xFFFF`
contributes its surrogate pair. -/
def utf16Codes (c : Char) : List ℕ :=
  let n := c.toNat
  if n < 0x10000 then [n]
  else [0xD800 + (n - 0x10000) / 0x400, 0xDC00 + (n - 0x10000) % 0x400]

/-- Sum of the UTF-16 character codes of a string. -/
def charCodeSum (s : String) : ℕ :=
  (s.data.map utf16Codes).flatten.sum

/-- The attribute-targeting test of `app.js` line 368:
`userAttributes.country === 'US' || userAttributes.plan === 'premium'`.
A missing property reads as `undefined`, which strict-equals no string. -/
def attrTargeted (m : Attrs) : Bool :=
  (mapGet m "country" == some (.str "US")) || (mapGet m "plan" == some (.str "premium"))

/-- The assignment decision of `app.js` lines 357-369: `assigned` starts
`false`; if `userId` is truthy the character-code-sum parity decides;
otherwise if `userAttributes` is truthy the attribute targeting decides. -/
def evalAssigned (userId : Option String) (userAttributes : Option Attrs) : Bool :=
  if strTruthy userId then
    charCodeSum (userId.getD "") % 2 == 0
  else if attrsTruthy userAttributes then
    attrTargeted (userAttributes.getD [])
  else
    false

/-- Modelled from the spec: the `ValueCoercer` of §4.2 backing the
`GET /flags/:flagKey/enabled` route, whose handler is exercised by
`src/test/api.test.js` lines 79-160 but is absent from `src/app.js`.
boolean → identity; string → `true` iff case-insensitively equal to
`"true"` or exactly `"1"`; number → `true` iff non-zero; any structured
value → `false`.  Total: no input raises. -/
def coerce : JSValue → Bool
  | .bool b => b
  | .str s => (s.data.map Char.toLower == "true".data) || (s == "1")
  | .num q => q != 0
  | .obj _ => false

/-- Outcome of a handler: a 200 body, or an error status with an
`{error: ...}` body. -/
inductive ApiResult (α : Type) where
  | ok (body : α)
  | err (status : ℕ) (error : String)
deriving DecidableEq, Repr

/-- Body of a 200 response of `GET /flags/:flagKey/enabled`. -/
structure EnabledBody where
  enabled : Bool
  lastUpdated : String
  source : String
deriving DecidableEq, Repr

/-- Modelled from the spec: the `GET /flags/:flagKey/enabled` handler
(§6 row 3), absent from `src/app.js`; per the spec and the tests it looks
the flag up, answers 404 `Flag not found` when absent, and otherwise
returns `{enabled: coerce(value), lastUpdated, source}`. -/
def getEnabled (store : FlagStore) (flagKey : String) : ApiResult EnabledBody :=
  match mapGet store flagKey with
  | none => .err 404 "Flag not found"
  | some f => .ok ⟨coerce f.value, f.lastUpdated, f.source⟩

/-- `parseContext` (`app.js` lines 34-41): an absent or empty (falsy) string
gives `{}`; otherwise `JSON.parse` is attempted and a parse failure is
swallowed into `{}`.  The JSON parser is an explicit parameter `parse`
returning `none` exactly when `JSON.parse` would throw. -/
def parseContext (parse : String → Option Attrs) : Option String → Attrs
  | none => []
  | some s => if s = "" then [] else (parse s).getD []

/-- `GET /flags` handler (`app.js` lines 110-118): builds an object from all
store entries; `applicationId` is read but unused. -/
def getFlags (store : FlagStore) (applicationId : Option String) : FlagStore :=
  store

/-- `GET /flags/:flagKey` handler (`app.js` lines 162-174): parses the
context (result unused), looks the flag up, 404 when absent, otherwise
returns the record. -/
def getFlag (parse : String → Option Attrs) (store : FlagStore)
    (applicationId context : Option String) (flagKey : String) : ApiResult FlagRecord :=
  let _ctx := parseContext parse context
  match mapGet store flagKey with
  | none => .err 404 "Flag not found"
  | some f => .ok f

/-- Body of a 200 response of `POST /flags/refresh`. -/
structure RefreshBody where
  refreshed : Bool
  timestamp : String
deriving DecidableEq, Repr

/-- The store after `POST /flags/refresh` (`app.js` lines 203-208): every
record is replaced by a copy whose `lastUpdated` is the fresh timestamp. -/
def refreshAll (store : FlagStore) (timestamp : String) : FlagStore :=
  store.map (fun kf => (kf.1, { kf.2 with lastUpdated := timestamp }))

/-- `POST /flags/refresh` handler (`app.js` lines 196-214): returns the
updated store and `{refreshed: true, timestamp}`. -/
def refreshHandler (store : FlagStore) (applicationId : Option String)
    (timestamp : String) : FlagStore × RefreshBody :=
  (refreshAll store timestamp, ⟨true, timestamp⟩)

/-- Request body of the assignment routes: optional `userId`, optional
`userAttributes`. -/
structure AssignmentBody where
  userId : Option String
  userAttributes : Option Attrs
deriving DecidableEq, Repr

/-- The fixed demo variation descriptor of `app.js` lines 267-275. -/
structure Variation where
  flagKey : String
  value : JSValue
  variation : String
  assigned : Bool
  reason : String
  lastUpdated : String
  source : String
deriving DecidableEq, Repr

/-- `POST /assignment` handler (`app.js` lines 251-278): 400 when neither
`userId` nor `userAttributes` is truthy, otherwise the fixed demo
variation descriptor stamped `now`. -/
def assignHandler (applicationId : Option String) (body : AssignmentBody)
    (now : String) : ApiResult Variation :=
  if !strTruthy body.userId && !attrsTruthy body.userAttributes then
    .err 400 "Either userId or userAttributes must be provided"
  else
    .ok ⟨"feature-new-ui", .bool true, "on", true, "DEFAULT", now, "bootstrap"⟩

/-- Body of a 200 response of `POST /assignment/:flagKey`. -/
structure AssignedBody where
  assigned : Bool
deriving DecidableEq, Repr

/-- `POST /assignment/:flagKey` handler (`app.js` lines 329-374): identity
validation first (400), then flag lookup (404), then the assignment
decision. -/
def assignFlagHandler (store : FlagStore) (applicationId : Option String)
    (flagKey : String) (body : AssignmentBody) : ApiResult AssignedBody :=
  if !strTruthy body.userId && !attrsTruthy body.userAttributes then
    .err 400 "Either userId or userAttributes must be provided"
  else
    match mapGet store flagKey with
    | none => .err 404 "Flag not found"
    | some _flag => .ok ⟨evalAssigned body.userId body.userAttributes⟩

/-- Lookup after a refresh: every record found is the old record with only
`lastUpdated` replaced. -/
theorem mapGet_refreshAll (s : FlagStore) (t k : String) :
    mapGet (refreshAll s t) k = (mapGet s k).map (fun f => ⟨f.value, t, f.source⟩) := by
  induction s with
  | nil => rfl
  | cons kf rest ih =>
    obtain ⟨a, f⟩ := kf
    by_cases h : k = a
    · simp [refreshAll, mapGet, h]
    · simp only [refreshAll, List.map_cons, mapGet, if_neg h]
      simpa [refreshAll] using ih

/-- C2: the value-to-boolean coercion is the identity on booleans; a string
coerces to `true` iff it case-insensitively equals `"true"` or exactly equals
`"1"` (so `""`, `"yes"`, `"0"`, `"v2"` give `false`); a number coerces to
`true` iff it is non-zero, including negative and fractional values; every
structured value coerces to `false`.  `coerce` is a total Lean function over
`JSValue`, so no input raises an error. -/
theorem coerce_spec :
    (∀ b : Bool, coerce (.bool b) = b) ∧
    (∀ s : String, coerce (.str s) = true ↔ (s.data.map Char.toLower = "true".data ∨ s = "1")) ∧
    coerce (.str "") = false ∧ coerce (.str "yes") = false ∧ coerce (.str "0") = false ∧
    coerce (.str "v2") = false ∧ coerce (.str "true") = true ∧ coerce (.str "TRUE") = true ∧
    coerce (.str "tRuE") = true ∧ coerce (.str "1") = true ∧
    (∀ q : ℚ, coerce (.num q) = true ↔ q ≠ 0) ∧
    coerce (.num 0) = false ∧ coerce (.num (-5)) = true ∧ coerce (.num 50) = true ∧
    coerce (.num (1/2)) = true ∧ coerce (.num (-3/4)) = true ∧
    (∀ id : ℕ, coerce (.obj id) = false) := by
  refine ⟨fun b => rfl, fun s => ?_, by decide, by decide, by decide, by decide, by decide,
    by decide, by decide, by decide, fun q => ?_, by decide, by decide, by decide,
    by simp [coerce], by simp [coerce], fun id => rfl⟩
  · simp [coerce]
  · simp [coerce]

/-- C1: `GET /flags/:flagKey/enabled` returns, for every key present in the
store, a 200 body `{enabled, lastUpdated, source}` whose `enabled` field is
the boolean coercion of the stored value; for every absent key it returns
404 with error `Flag not found`; and on the seed store, `feature-new-ui`
is enabled, `api-version` is not (the string `v2` matches no truthy form)
and `max-items-per-page` is (50 is non-zero). -/
theorem getEnabled_spec :
    (∀ (store : FlagStore) (k : String) (f : FlagRecord), mapGet store k = some f →
      getEnabled store k = .ok ⟨coerce f.value, f.lastUpdated, f.source⟩) ∧
    (∀ (store : FlagStore) (k : String), mapGet store k = none →
      getEnabled store k = .err 404 "Flag not found") ∧
    (∀ t1 t2 t3 t4 : String,
      getEnabled (initFlags t1 t2 t3 t4) "feature-new-ui" = .ok ⟨true, t1, "bootstrap"⟩ ∧
      getEnabled (initFlags t1 t2 t3 t4) "api-version" = .ok ⟨false, t4, "bootstrap"⟩ ∧
      getEnabled (initFlags t1 t2 t3 t4) "max-items-per-page" = .ok ⟨true, t3, "bootstrap"⟩) := by
  refine ⟨fun store k f h => ?_, fun store k h => ?_, fun t1 t2 t3 t4 => ?_⟩
  · simp [getEnabled, h]
  · simp [getEnabled, h]
  · refine ⟨?_, ?_, ?_⟩ <;> simp [getEnabled, initFlags, mapGet, coerce]

/-- Witness for C1: on the seed store stamped with concrete timestamps, both
the present-key and the absent-key branches of `getEnabled_spec` hold at
concrete inputs. -/
theorem getEnabled_spec_witness :
    mapGet (initFlags "a" "b" "c" "d") "feature-analytics" =
        some ⟨.bool false, "b", "bootstrap"⟩ ∧
    getEnabled (initFlags "a" "b" "c" "d") "feature-analytics" =
        .ok ⟨false, "b", "bootstrap"⟩ ∧
    mapGet (initFlags "a" "b" "c" "d") "missing-flag" = none ∧
    getEnabled (initFlags "a" "b" "c" "d") "missing-flag" = .err 404 "Flag not found" :=
  ⟨by decide, getEnabled_spec.1 _ _ ⟨.bool false, "b", "bootstrap"⟩ (by decide), by decide,
    getEnabled_spec.2.1 _ _ (by decide)⟩

/-- C3: for every non-empty `userId`, flag-scoped assignment on an existing
flag answers 200 `{assigned}` where `assigned` is `true` iff the sum of the
character codes of `userId` is even — whatever `userAttributes` the body also
carries, so the `userId` decision takes precedence; and because the result is
a function of the `userId` string alone, identical strings always receive the
identical `assigned` value. -/
theorem userId_assignment_spec (store : FlagStore) (a : Option String) (k : String)
    (body : AssignmentBody) (s : String) (f : FlagRecord)
    (hid : body.userId = some s) (hne : s ≠ "") (hflag : mapGet store k = some f) :
    assignFlagHandler store a k body = .ok ⟨charCodeSum s % 2 == 0⟩ := by
  obtain ⟨uid, attrs⟩ := body
  simp only [AssignmentBody.userId] at hid
  subst hid
  simp [assignFlagHandler, strTruthy, hne, hflag, evalAssigned]

/-- Witness for C3: the seed store, flag `feature-new-ui`, `userId` `user-123`
with a `userAttributes` object also present; the character-code sum 642 is
even, so the user is assigned. -/
theorem userId_assignment_spec_witness :
    assignFlagHandler (initFlags "a" "b" "c" "d") none "feature-new-ui"
        ⟨some "user-123", some [("country", .str "CA")]⟩ =
      .ok ⟨charCodeSum "user-123" % 2 == 0⟩ ∧
    (charCodeSum "user-123" % 2 == 0) = true :=
  ⟨userId_assignment_spec _ _ _ _ "user-123" ⟨.bool true, "a", "bootstrap"⟩
      rfl (by decide) (by decide),
    by decide⟩

/-- C4: for an attribute-map body with no `userId`, flag-scoped assignment on
an existing flag answers 200 `{assigned}` with `assigned` true iff the map's
`country` entry is the string `US` or its `plan` entry is the string
`premium`; a missing `country` or `plan` entry simply fails the comparison
(no error), and any two maps agreeing on their `country` and `plan` lookups
receive the same answer, so every other attribute has no effect. -/
theorem attrs_assignment_spec (store : FlagStore) (a : Option String) (k : String)
    (m : Attrs) (f : FlagRecord) (hflag : mapGet store k = some f) :
    assignFlagHandler store a k ⟨none, some m⟩ =
      .ok ⟨(mapGet m "country" == some (.str "US")) ||
           (mapGet m "plan" == some (.str "premium"))⟩ ∧
    (∀ m2 : Attrs, mapGet m2 "country" = mapGet m "country" →
      mapGet m2 "plan" = mapGet m "plan" →
      assignFlagHandler store a k ⟨none, some m2⟩ = assignFlagHandler store a k ⟨none, some m⟩) := by
  constructor
  · simp [assignFlagHandler, strTruthy, attrsTruthy, hflag, evalAssigned, attrTargeted]
  · intro m2 hc hp
    simp [assignFlagHandler, strTruthy, attrsTruthy, hflag, evalAssigned, attrTargeted, hc, hp]

/-- Witness for C4: the spec's three targeting examples on the seed store —
`US`/`free` assigned, `CA`/`premium` assigned, `CA`/`free` not — plus an
empty attribute map, which is accepted and not assigned. -/
theorem attrs_assignment_spec_witness :
    assignFlagHandler (initFlags "a" "b" "c" "d") none "feature-new-ui"
        ⟨none, some [("country", .str "US"), ("plan", .str "free")]⟩ = .ok ⟨true⟩ ∧
    assignFlagHandler (initFlags "a" "b" "c" "d") none "feature-new-ui"
        ⟨none, some [("country", .str "CA"), ("plan", .str "premium")]⟩ = .ok ⟨true⟩ ∧
    assignFlagHandler (initFlags "a" "b" "c" "d") none "feature-new-ui"
        ⟨none, some [("country", .str "CA"), ("plan", .str "free")]⟩ = .ok ⟨false⟩ ∧
    assignFlagHandler (initFlags "a" "b" "c" "d") none "feature-new-ui"
        ⟨none, some []⟩ = .ok ⟨false⟩ := by
  refine ⟨?_, ?_, ?_, ?_⟩
  · exact ((attrs_assignment_spec _ none _ _ ⟨.bool true, "a", "bootstrap"⟩ (by decide)).1).trans
      (by decide)
  · exact ((attrs_assignment_spec _ none _ _ ⟨.bool true, "a", "bootstrap"⟩ (by decide)).1).trans
      (by decide)
  · exact ((attrs_assignment_spec _ none _ _ ⟨.bool true, "a", "bootstrap"⟩ (by decide)).1).trans
      (by decide)
  · exact ((attrs_assignment_spec _ none _ _ ⟨.bool true, "a", "bootstrap"⟩ (by decide)).1).trans
      (by decide)

/-- C5: after `POST /flags/refresh` with fresh timestamp `t`, the response is
`{refreshed: true, timestamp: t}`; the key set of the store is unchanged (no
key added or removed, in the same positions); every key present before maps
afterwards to a record with `lastUpdated = t` and its `value` and `source`
exactly as before; and every key absent before is still absent. -/
theorem refresh_spec (store : FlagStore) (a : Option String) (t : String) :
    (refreshHandler store a t).2 = ⟨true, t⟩ ∧
    (refreshHandler store a t).1.map Prod.fst = store.map Prod.fst ∧
    (∀ (k : String) (f : FlagRecord), mapGet store k = some f →
      mapGet (refreshHandler store a t).1 k = some ⟨f.value, t, f.source⟩) ∧
    (∀ k : String, mapGet store k = none → mapGet (refreshHandler store a t).1 k = none) := by
  refine ⟨rfl, ?_, fun k f h => ?_, fun k h => ?_⟩
  · simp [refreshHandler, refreshAll]
  · simp [refreshHandler, mapGet_refreshAll, h]
  · simp [refreshHandler, mapGet_refreshAll, h]

/-- Witness for C5: refreshing the seed store with timestamp `T` keeps the
four keys, restamps `feature-new-ui` to `T` keeping its value and source, and
still lacks the absent key. -/
theorem refresh_spec_witness :
    (refreshHandler (initFlags "a" "b" "c" "d") none "T").2 = ⟨true, "T"⟩ ∧
    (refreshHandler (initFlags "a" "b" "c" "d") none "T").1.map Prod.fst =
      (initFlags "a" "b" "c" "d").map Prod.fst ∧
    mapGet (refreshHandler (initFlags "a" "b" "c" "d") none "T").1 "feature-new-ui" =
      some ⟨.bool true, "T", "bootstrap"⟩ ∧
    mapGet (refreshHandler (initFlags "a" "b" "c" "d") none "T").1 "missing-flag" = none :=
  ⟨(refresh_spec _ none "T").1, (refresh_spec _ none "T").2.1,
    (refresh_spec _ none "T").2.2.1 "feature-new-ui" ⟨.bool true, "a", "bootstrap"⟩ (by decide),
    (refresh_spec _ none "T").2.2.2 "missing-flag" (by decide)⟩

/-- C6: `POST /assignment/:flagKey` validates the identity before resolving
the flag: the 400 `Either userId or userAttributes must be provided` outcome
occurs exactly when neither `userId` nor `userAttributes` is (JS-)truthy —
whether or not the flag exists, so a missing identity together with a missing
flag still yields 400 — and the 404 `Flag not found` outcome occurs exactly
when an identity is supplied but the flag key is absent from the store. -/
theorem assignFlag_error_spec (store : FlagStore) (a : Option String) (k : String)
    (body : AssignmentBody) :
    (assignFlagHandler store a k body =
        .err 400 "Either userId or userAttributes must be provided" ↔
      strTruthy body.userId = false ∧ attrsTruthy body.userAttributes = false) ∧
    (assignFlagHandler store a k body = .err 404 "Flag not found" ↔
      (strTruthy body.userId = true ∨ attrsTruthy body.userAttributes = true) ∧
      mapGet store k = none) := by
  obtain ⟨uid, attrs⟩ := body
  cases hu : strTruthy uid <;> cases ha : attrsTruthy attrs <;>
    cases hm : mapGet store k <;> simp [assignFlagHandler, hu, ha, hm]

/-- C7: the flag-less `POST /assignment` returns, for every body carrying a
truthy `userId` or `userAttributes`, the fixed demo variation descriptor for
`feature-new-ui` with reason `DEFAULT` — the same `flagKey`, `value`,
`variation`, `assigned` and `reason` for every valid identity, none of it
derived from the body — and rejects a body with neither identity form with
the 400 `InvalidRequest` outcome before producing any descriptor. -/
theorem assign_flagless_spec (a : Option String) (body : AssignmentBody) (now : String) :
    ((strTruthy body.userId = true ∨ attrsTruthy body.userAttributes = true) →
      assignHandler a body now =
        .ok ⟨"feature-new-ui", .bool true, "on", true, "DEFAULT", now, "bootstrap"⟩) ∧
    (strTruthy body.userId = false → attrsTruthy body.userAttributes = false →
      assignHandler a body now = .err 400 "Either userId or userAttributes must be provided") := by
  obtain ⟨uid, attrs⟩ := body
  constructor
  · rintro (h | h) <;> simp [assignHandler, h]
  · intro h1 h2
    simp [assignHandler, h1, h2]

/-- Witness for C7: two different valid identities receive the identical
descriptor, and the empty body is rejected with 400. -/
theorem assign_flagless_spec_witness :
    assignHandler none ⟨some "user-123", none⟩ "T" =
      .ok ⟨"feature-new-ui", .bool true, "on", true, "DEFAULT", "T", "bootstrap"⟩ ∧
    assignHandler none ⟨none, some [("country", .str "CA")]⟩ "T" =
      .ok ⟨"feature-new-ui", .bool true, "on", true, "DEFAULT", "T", "bootstrap"⟩ ∧
    assignHandler none ⟨none, none⟩ "T" =
      .err 400 "Either userId or userAttributes must be provided" :=
  ⟨(assign_flagless_spec none ⟨some "user-123", none⟩ "T").1 (Or.inl (by decide)),
    (assign_flagless_spec none ⟨none, some [("country", .str "CA")]⟩ "T").1 (Or.inr (by decide)),
    (assign_flagless_spec none ⟨none, none⟩ "T").2 (by decide) (by decide)⟩

/-- C8: context parsing never fails and malformed input degrades silently:
an absent context gives the empty mapping, a string `JSON.parse` rejects
gives the empty mapping, a non-empty string `JSON.parse` accepts gives the
parsed object; and `GET /flags/:flagKey` returns the same result with any
context string as with none (the parsed context is currently unused), so a
malformed context behaves exactly like an absent one. -/
theorem parseContext_tolerant (parse : String → Option Attrs) :
    parseContext parse none = [] ∧
    (∀ s : String, parse s = none → parseContext parse (some s) = []) ∧
    (∀ (s : String) (j : Attrs), s ≠ "" → parse s = some j →
      parseContext parse (some s) = j) ∧
    (∀ (store : FlagStore) (a c : Option String) (k : String),
      getFlag parse store a c k = getFlag parse store a none k) := by
  refine ⟨rfl, fun s h => ?_, fun s j hne h => ?_, fun store a c k => rfl⟩
  · by_cases he : s = "" <;> simp [parseContext, he, h]
  · simp [parseContext, hne, h]

/-- Witness for C8: with a concrete parser accepting exactly the string
`good`, the rejected string and the accepted string both behave as stated,
and on the seed store the flag request with the rejected context equals the
request with no context. -/
theorem parseContext_tolerant_witness :
    parseContext (fun s => if s = "good" then some [("country", .str "US")] else none)
        (some "not-json") = [] ∧
    parseContext (fun s => if s = "good" then some [("country", .str "US")] else none)
        (some "good") = [("country", .str "US")] ∧
    getFlag (fun s => if s = "good" then some [("country", .str "US")] else none)
        (initFlags "a" "b" "c" "d") none (some "not-json") "feature-new-ui" =
      getFlag (fun s => if s = "good" then some [("country", .str "US")] else none)
        (initFlags "a" "b" "c" "d") none none "feature-new-ui" :=
  ⟨(parseContext_tolerant _).2.1 "not-json" (by decide),
    (parseContext_tolerant _).2.2.1 "good" _ (by decide) (by decide),
    (parseContext_tolerant _).2.2.2 (initFlags "a" "b" "c" "d") none (some "not-json")
      "feature-new-ui"⟩

/-- C9: `applicationId` is accepted but inert on every route: each of the
five handlers produces the same response — and, for the refresh route, the
same post-state of the store — with an arbitrary `applicationId` as with
none, all other inputs and the store state held equal.  The four read-only
handlers take the store as a pure argument and return no store, mirroring
that the source never mutates `flags` there. -/
theorem applicationId_inert (a : Option String) (store : FlagStore)
    (parse : String → Option Attrs) (c : Option String) (k : String)
    (body : AssignmentBody) (now t : String) :
    getFlags store a = getFlags store none ∧
    getFlag parse store a c k = getFlag parse store none c k ∧
    refreshHandler store a t = refreshHandler store none t ∧
    assignHandler a body now = assignHandler none body now ∧
    assignFlagHandler store a k body = assignFlagHandler store none k body :=
  ⟨rfl, rfl, rfl, rfl, rfl⟩

/-- C10: an empty-string `userId` is falsy, hence treated as absent: with no
`userAttributes` both assignment routes answer 400 `InvalidRequest`; with
`userAttributes` also present the body is accepted and decided by the
attribute form — the empty `userId` does not take precedence — so on an
existing flag the answer is the attribute-targeting decision. -/
theorem empty_userId_spec (store : FlagStore) (a : Option String) (k : String)
    (m : Attrs) (now : String) :
    assignHandler a ⟨some "", none⟩ now =
      .err 400 "Either userId or userAttributes must be provided" ∧
    assignFlagHandler store a k ⟨some "", none⟩ =
      .err 400 "Either userId or userAttributes must be provided" ∧
    assignFlagHandler store a k ⟨some "", some m⟩ = assignFlagHandler store a k ⟨none, some m⟩ ∧
    (∀ f : FlagRecord, mapGet store k = some f →
      assignFlagHandler store a k ⟨some "", some m⟩ = .ok ⟨attrTargeted m⟩) := by
  refine ⟨rfl, rfl, ?_, fun f hf => ?_⟩
  · cases hm : mapGet store k <;>
      simp [assignFlagHandler, strTruthy, attrsTruthy, hm, evalAssigned]
  · simp [assignFlagHandler, strTruthy, attrsTruthy, hf, evalAssigned]

/-- Witness for C10: on the seed store, the body with empty `userId` and a
`premium` attribute map is assigned by the attribute form, and the body with
only the empty `userId` is rejected with 400. -/
theorem empty_userId_spec_witness :
    assignFlagHandler (initFlags "a" "b" "c" "d") none "feature-new-ui"
        ⟨some "", some [("plan", .str "premium")]⟩ = .ok ⟨true⟩ ∧
    assignFlagHandler (initFlags "a" "b" "c" "d") none "feature-new-ui" ⟨some "", none⟩ =
      .err 400 "Either userId or userAttributes must be provided" :=
  ⟨((empty_userId_spec (initFlags "a" "b" "c" "d") none "feature-new-ui"
        [("plan", .str "premium")] "T").2.2.2 ⟨.bool true, "a", "bootstrap"⟩
      (by decide)).trans (by decide),
    (empty_userId_spec (initFlags "a" "b" "c" "d") none "feature-new-ui" [] "T").2.1⟩

end FeatureFlags
